import Mathlib

/-!
Verification development for the lead-scout pipeline.

This file gives a shallow embedding, in Lean, of the logic of the
lead-generation dashboard: the email validator, the provider-output
normalizer and confidence mapper, the quota-error classifier of the
search gateway, and the controller state machine (search execution,
auto-loop tick, loop toggling, clear-all, persistence effect).
Definitions are translated directly from the TypeScript source; theorems
settle the specification claims about them.
-/

set_option maxRecDepth 10000

namespace Scout

/-! ### Email validator

Embedding of `isValidEmail` and its regular expression
`^(([^<>()[\]\\.,;:\s@"]+(\.[^<>()[\]\\.,;:\s@"]+)*)|(".+"))@((\[[0-9]{1,3}\.[0-9]{1,3}\.[0-9]{1,3}\.[0-9]{1,3}])|(([a-zA-Z\-0-9]+\.)+[a-zA-Z]{2,}))$`.
The anchored regex matches a string iff it splits at some `@` into a
local part (dot-atom or quoted form) and a domain (bracketed IPv4
literal or dotted labels ending in an alphabetic TLD of length at least
2); since no domain form may contain `@`, the split point is unique in
practice, but the embedding quantifies over all split points exactly as
a backtracking engine does. -/

/-- Characters matched by the JavaScript regex class `\s`
(ECMAScript WhiteSpace together with LineTerminator). -/
def isJsWhitespace (c : Char) : Bool :=
  c = ' ' || c = '\t' || c = '\n' || c = '\r' || c.val = 11 || c.val = 12 ||
  c.val = 0xa0 || c.val = 0x1680 || (0x2000 ≤ c.val && c.val ≤ 0x200a) ||
  c.val = 0x2028 || c.val = 0x2029 || c.val = 0x202f || c.val = 0x205f ||
  c.val = 0x3000 || c.val = 0xfeff

/-- Characters matched by the negated class of the local part:
everything except `< > ( ) [ ] \ . , ; : @ "` and whitespace. -/
def isAtomChar (c : Char) : Bool :=
  !(c = '<' || c = '>' || c = '(' || c = ')' || c = '[' || c = ']' ||
    c = '\\' || c = '.' || c = ',' || c = ';' || c = ':' || c = '@' ||
    c = '\"' || isJsWhitespace c)

/-- Characters matched by an unflagged JavaScript `.`:
anything but a line terminator. -/
def isJsDotChar (c : Char) : Bool :=
  !(c = '\n' || c = '\r' || c.val = 0x2028 || c.val = 0x2029)

/-- Local part, dot-atom alternative: `atom+ (. atom+)*`. Since atom
characters exclude the dot, this says every dot-separated segment is a
nonempty run of atom characters. -/
def dotAtomOk (l : List Char) : Bool :=
  (l.splitOn '.').all fun seg => !seg.isEmpty && seg.all isAtomChar

/-- Local part, quoted alternative: `" .+ "`. -/
def quotedOk (l : List Char) : Bool :=
  match l with
  | '\"' :: rest =>
    decide (2 ≤ rest.length) && rest.getLast? == some '\"' &&
      rest.dropLast.all isJsDotChar
  | _ => false

def localPartOk (l : List Char) : Bool := dotAtomOk l || quotedOk l

/-- Domain label `[a-zA-Z0-9-]+`. -/
def labelOk (seg : List Char) : Bool :=
  !seg.isEmpty && seg.all fun c => c.isAlpha || c.isDigit || c = '-'

/-- Final domain segment `[a-zA-Z]{2,}`. -/
def tldOk (seg : List Char) : Bool :=
  decide (2 ≤ seg.length) && seg.all Char.isAlpha

/-- Dotted-domain alternative: `(label .)+ tld`. -/
def dottedDomainOk (l : List Char) : Bool :=
  let segs := l.splitOn '.'
  decide (2 ≤ segs.length) && segs.dropLast.all labelOk &&
    (match segs.getLast? with
     | some t => tldOk t
     | none => false)

/-- One group of the IPv4 literal: one to three digits. -/
def ipSegOk (seg : List Char) : Bool :=
  decide (1 ≤ seg.length) && decide (seg.length ≤ 3) && seg.all Char.isDigit

/-- Bracketed IPv4-literal alternative of the domain. -/
def ipDomainOk (l : List Char) : Bool :=
  match l with
  | '[' :: rest =>
    rest.getLast? == some ']' &&
      (let segs := rest.dropLast.splitOn '.'
       segs.length == 4 && segs.all ipSegOk)
  | _ => false

def domainOk (l : List Char) : Bool := ipDomainOk l || dottedDomainOk l

/-- Anchored match of the whole email regex: some position holds `@`,
what precedes it is a valid local part and what follows a valid domain. -/
def emailRegexTest (s : String) : Bool :=
  let cs := s.toList
  (List.range cs.length).any fun i =>
    cs[i]? == some '@' && localPartOk (cs.take i) && domainOk (cs.drop (i + 1))

/-- Embedding of `isValidEmail`: false on the empty string (falsy) and
on the absence sentinel, otherwise the regex test. -/
def isValidEmail (email : String) : Bool :=
  if email = "" || email = "NULL" then false
  else emailRegexTest email

example : isValidEmail "a@b.co" = true := by decide
example : isValidEmail "bad@@@x" = false := by decide
example : isValidEmail "NULL" = false := by decide
example : isValidEmail "" = false := by decide
example : isValidEmail "john.doe@sub.example.com" = true := by decide
example : isValidEmail "a@[127.0.0.1]" = true := by decide
example : isValidEmail "\"odd local\"@example.org" = true := by decide
example : isValidEmail "nodomain@tldless" = false := by decide
example : isValidEmail "a@b.c" = false := by decide

/-! ### Data model -/

inductive EmailConfidence where
  | Verified
  | High
  | Low
  | Estimated
deriving DecidableEq

/-- Canonical lead record, from the `Lead` interface of `types.ts`.
The contact fields carry the string sentinel `"NULL"` for absence. -/
structure Lead where
  id : String
  firstName : String
  lastName : String
  email : String
  phone : String
  jobTitle : String
  companyName : String
  location : String
  linkedin : String
  website : String
  emailConfidence : EmailConfidence
  source : Option String
deriving DecidableEq

structure SearchCriteria where
  targetRoles : String
  keywords : String
  industries : String
  location : String
  includeContactInfo : Bool
  resultsAmount : Nat
deriving DecidableEq

/-- Raw provider record before normalization: every field may be absent
(`none`) or present; a present empty string is also falsy in the source
and therefore triggers the same default. -/
structure RawLead where
  firstName : Option String
  lastName : Option String
  email : Option String
  phone : Option String
  jobTitle : Option String
  companyName : Option String
  location : Option String
  linkedin : Option String
  website : Option String
  emailConfidence : Option String
deriving DecidableEq

/-! ### Gateway: confidence mapping, normalization, error classification
(from `services/geminiService.ts`) -/

/-- JavaScript string default `v || d`: the default is taken when the
value is absent or the empty string (both falsy). -/
def jsOr (v : Option String) (d : String) : String :=
  match v with
  | none => d
  | some s => if s = "" then d else s

/-- Substring test, the JavaScript `String.prototype.includes`
(case-sensitive). -/
def strContains (s pat : String) : Bool :=
  (List.range (s.toList.length + 1)).any fun i =>
    pat.toList.isPrefixOf (s.toList.drop i)

/-- JavaScript `toLowerCase` on the ASCII range, which covers every
token the source compares after lowering. -/
def jsToLower (s : String) : String :=
  String.mk (s.toList.map Char.toLower)

/-- Embedding of `mapConfidence`: case-insensitive substring dispatch. -/
def mapConfidence (conf : String) : EmailConfidence :=
  let c := jsToLower conf
  if strContains c "verif" then .Verified
  else if strContains c "high" then .High
  else if strContains c "low" then .Low
  else .Estimated

/-- Embedding of the normalizing mapper inside `findLeads`
(the `rawLeads.map` body); `id` stands for the generated UUID. -/
def normalizeRaw (id : String) (r : RawLead) : Lead :=
  { id := id
    firstName := jsOr r.firstName "Unknown"
    lastName := jsOr r.lastName ""
    email := jsOr r.email "NULL"
    phone := jsOr r.phone "NULL"
    jobTitle := jsOr r.jobTitle "Unknown"
    companyName := jsOr r.companyName "Unknown"
    location := jsOr r.location "Unknown"
    linkedin := jsOr r.linkedin ""
    website := jsOr r.website ""
    emailConfidence := mapConfidence (jsOr r.emailConfidence "Low")
    source := some "Gemini Search" }

/-- Thrown JavaScript error as the catch block of `findLeads` sees it:
its `message`, its numeric `status` and `code` properties, and the
stringified own-property dump `JSON.stringify(error, getOwnPropertyNames(error))`. -/
structure JsError where
  message : String
  status : Option Int
  code : Option Int
  props : String
deriving DecidableEq

/-- JavaScript `error.status || error.code`: the status when present and
truthy (nonzero), otherwise the code. -/
def statusOrCode (e : JsError) : Option Int :=
  match e.status with
  | some v => if v = 0 then e.code else some v
  | none => e.code

/-- Embedding of the `isQuotaError` condition of the catch block in
`findLeads`; every substring test is the case-sensitive `includes`. -/
def isQuotaError (e : JsError) : Bool :=
  strContains e.message "RESOURCE_EXHAUSTED" ||
  strContains e.message "429" ||
  strContains e.message "quota" ||
  statusOrCode e == some 429 ||
  strContains e.props "RESOURCE_EXHAUSTED" ||
  strContains e.props "search_grounding_request_per_project_per_day_per_user"

/-- The distinguished error thrown by the gateway on quota exhaustion:
`new Error("QUOTA_EXCEEDED")`. -/
def quotaExceededError : JsError :=
  { message := "QUOTA_EXCEEDED", status := none, code := none, props := "" }

/-- Error transformation of the catch block of `findLeads`: a failure
classified as a quota error is replaced by the distinguished
`QUOTA_EXCEEDED` error, every other failure is rethrown unchanged. -/
def findLeadsThrow (e : JsError) : JsError :=
  if isQuotaError e then quotaExceededError else e

/-- Normalization of a whole provider batch; `ids` supplies the
generated UUID for each position. -/
def normalizeBatch (ids : Nat → String) (raws : List RawLead) : List Lead :=
  ((List.range raws.length).zip raws).map fun p => normalizeRaw (ids p.1) p.2

/-- Embedding of `findLeads`: the provider either returns a raw batch,
which is normalized, or throws, in which case the error is classified. -/
def findLeads (ids : Nat → String) (outcome : Except JsError (List RawLead)) :
    Except JsError (List Lead) :=
  match outcome with
  | .ok raws => .ok (normalizeBatch ids raws)
  | .error e => .error (findLeadsThrow e)

/-! ### Controller state machine (from the `App` component)

The React component state is collected into one record; the persistence
effect of lines 66-69 (save the collection under the fixed key and
recompute `totalFound`) runs whenever the lead collection changes and is
applied by `persistEffect` at every transition that sets `leads`.
`storage` models the value stored under the `hasan_scout_leads` key,
`none` meaning the key is absent. -/

structure ScoutStatus where
  isSearching : Bool
  isLooping : Bool
  totalFound : Nat
  lastSearchTime : Option String
  logs : List String
deriving DecidableEq

structure AppState where
  leads : List Lead
  status : ScoutStatus
  currentCriteria : Option SearchCriteria
  quotaHit : Bool
  storage : Option (List Lead)
deriving DecidableEq

/-- Embedding of `addLog`: prepend and keep the last five entries. -/
def addLog (msg : String) (s : AppState) : AppState :=
  { s with status := { s.status with logs := (msg :: s.status.logs).take 5 } }

/-- The persistence effect on `[leads]` (lines 66-69): serialize the
collection under the fixed key and recompute `totalFound`. -/
def persistEffect (s : AppState) : AppState :=
  { s with storage := some s.leads
           status := { s.status with totalFound := s.leads.length } }

/-- State change of `setLeads` together with the persistence effect it
triggers. -/
def setLeadsAndPersist (s : AppState) (ls : List Lead) : AppState :=
  persistEffect { s with leads := ls }

/-- Identifier used to build the existing-identifier set (line 91):
the linkedin value when the email is the sentinel, else the email. -/
def existingIdsOf (leads : List Lead) : List String :=
  leads.map fun l => if l.email == "NULL" then l.linkedin else l.email

/-- Embedding of the strict validation pass (lines 96-101): a
non-sentinel email failing the validator is downgraded to the sentinel
with confidence `Low`. -/
def validatePass (l : Lead) : Lead :=
  if l.email != "NULL" && !(isValidEmail l.email) then
    { l with email := "NULL", emailConfidence := .Low }
  else l

/-- Dedup identifier of a candidate lead (line 105). -/
def leadDedupId (l : Lead) : String :=
  if l.email != "NULL" then l.email else l.linkedin

/-- Dedup predicate (lines 104-108): keep when the identifier is falsy
(empty), else keep exactly when it is not in the existing set. -/
def keepLead (existing : List String) (l : Lead) : Bool :=
  let id := leadDedupId l
  if id == "" then true else !(existing.contains id)

/-- Entry of the search sequence: mark searching and log. -/
def beginSearch (s : AppState) : AppState :=
  addLog "Initiating Scout Sequence..."
    { s with status := { s.status with isSearching := true } }

/-- Success continuation of `executeSearch`: validate, deduplicate
against the pre-call identifier set, prepend survivors, log, clear
`isSearching` and record the search time. -/
def searchSuccess (now : String) (s1 : AppState) (newLeads : List Lead) : AppState :=
  let existing := existingIdsOf s1.leads
  let validatedLeads := newLeads.map validatePass
  let uniqueNewLeads := validatedLeads.filter (keepLead existing)
  let s2 :=
    if 0 < uniqueNewLeads.length then
      addLog ("Scout returned " ++ toString uniqueNewLeads.length ++ " new agents.")
        (setLeadsAndPersist s1 (uniqueNewLeads ++ s1.leads))
    else addLog "Scout returned no new unique leads this cycle." s1
  { s2 with status := { s2.status with isSearching := false, lastSearchTime := some now } }

/-- Failure continuation of `executeSearch`: the distinguished quota
message halts the session (loop off, quota flag set, critical log);
any other error only logs and clears `isSearching`. -/
def searchFailure (s1 : AppState) (err : JsError) : AppState :=
  if err.message == "QUOTA_EXCEEDED" then
    addLog "CRITICAL: Daily Search Quota Hit (100/day). Pausing."
      { s1 with status := { s1.status with isLooping := false, isSearching := false }
                quotaHit := true }
  else
    addLog "Scout encountered an error."
      { s1 with status := { s1.status with isSearching := false } }

/-- Embedding of `executeSearch`; `outcome` is what the provider call
inside the gateway produced and `now` the wall-clock reading. While the
quota flag is set the function only raises an alert and changes nothing. -/
def executeSearch (ids : Nat → String) (now : String) (s : AppState)
    (outcome : Except JsError (List RawLead)) : AppState :=
  if s.quotaHit then s
  else
    match findLeads ids outcome with
    | .ok newLeads => searchSuccess now (beginSearch s) newLeads
    | .error err => searchFailure (beginSearch s) err

/-- Embedding of `handleSearch`: store the criteria as current, then run
the search. -/
def handleSearch (ids : Nat → String) (now : String) (s : AppState)
    (criteria : SearchCriteria) (outcome : Except JsError (List RawLead)) : AppState :=
  executeSearch ids now { s with currentCriteria := some criteria } outcome

/-- Embedding of one auto-loop interval tick: fires only while looping
with stored criteria, not searching and not halted; below the goal it
re-runs the search, at the goal it disables looping. -/
def loopTick (ids : Nat → String) (now : String) (s : AppState)
    (outcome : Except JsError (List RawLead)) : AppState :=
  match s.currentCriteria with
  | some c =>
    if s.status.isLooping && !s.status.isSearching && !s.quotaHit then
      if s.leads.length < c.resultsAmount then executeSearch ids now s outcome
      else addLog "Goal reached. Looping disabled."
        { s with status := { s.status with isLooping := false } }
    else s
  | none => s

/-- Embedding of `toggleLoop`: refused without criteria while not
looping, refused while halted, otherwise flips `isLooping`. -/
def toggleLoop (s : AppState) : AppState :=
  if s.currentCriteria.isNone && !s.status.isLooping then s
  else if s.quotaHit then s
  else { s with status := { s.status with isLooping := !s.status.isLooping } }

/-- State right after the confirmed `clearData` handler body: the
collection is emptied and the persistence key removed. -/
def clearDataHandler (s : AppState) : AppState :=
  { s with leads := [], storage := none }

/-- Embedding of `clearData`: on confirmation the handler runs and the
persistence effect then fires because the collection changed, re-writing
the key with the serialized empty collection. -/
def clearData (confirmed : Bool) (s : AppState) : AppState :=
  if confirmed then persistEffect (clearDataHandler s) else s

/-- Embedding of the find-more-now action: rendered, hence invocable,
only with current criteria while not searching and not halted. -/
def findMoreNow (ids : Nat → String) (now : String) (s : AppState)
    (outcome : Except JsError (List RawLead)) : AppState :=
  match s.currentCriteria with
  | some _ =>
    if !s.status.isSearching && !s.quotaHit then executeSearch ids now s outcome
    else s
  | none => s

/-- User intents and timer events driving the controller, each search
event carrying the provider outcome it observes. -/
inductive Event where
  | search (criteria : SearchCriteria) (outcome : Except JsError (List RawLead)) (now : String)
  | findMore (outcome : Except JsError (List RawLead)) (now : String)
  | tick (outcome : Except JsError (List RawLead)) (now : String)
  | toggle
  | clear (confirmed : Bool)

def step (ids : Nat → String) (s : AppState) (e : Event) : AppState :=
  match e with
  | .search c o now => handleSearch ids now s c o
  | .findMore o now => findMoreNow ids now s o
  | .tick o now => loopTick ids now s o
  | .toggle => toggleLoop s
  | .clear confirmed => clearData confirmed s

def run (ids : Nat → String) (s : AppState) (es : List Event) : AppState :=
  es.foldl (step ids) s

/-- Session start: the mount effects load the persisted collection (or
fall back to empty) and the persistence effect then re-saves it and sets
`totalFound`. -/
def mount (saved : Option (List Lead)) : AppState :=
  let ls := saved.getD []
  { leads := ls
    status := { isSearching := false, isLooping := false, totalFound := ls.length,
                lastSearchTime := none, logs := [] }
    currentCriteria := none
    quotaHit := false
    storage := some ls }

/-! ### Sample data used by witnesses and counterexamples -/

/-- Raw provider record with every field absent. -/
def emptyRaw : RawLead :=
  { firstName := none, lastName := none, email := none, phone := none,
    jobTitle := none, companyName := none, location := none,
    linkedin := none, website := none, emailConfidence := none }

/-- Lead whose provider-claimed email is malformed. -/
def badEmailLead : Lead :=
  { id := "1", firstName := "A", lastName := "B", email := "bad@@@x",
    phone := "NULL", jobTitle := "T", companyName := "C", location := "L",
    linkedin := "", website := "", emailConfidence := .Verified, source := none }

/-- Lead with sentinel email and empty linkedin: no dedup identifier. -/
def sentinelLead : Lead :=
  { id := "2", firstName := "N", lastName := "", email := "NULL",
    phone := "NULL", jobTitle := "T", companyName := "C", location := "L",
    linkedin := "", website := "", emailConfidence := .Estimated, source := none }

/-- Provider failure whose message names the quota only capitalized. -/
def upperQuotaError : JsError :=
  { message := "Quota exceeded for project", status := none, code := none,
    props := "message Quota exceeded for project" }

/-- Provider failure carrying the classic quota markers. -/
def err429 : JsError :=
  { message := "429 RESOURCE_EXHAUSTED", status := none, code := none, props := "" }

/-! ### Helper lemmas -/

theorem emailRegexTest_empty : emailRegexTest "" = false := by decide

theorem mapConfidence_low_string : mapConfidence "Low" = EmailConfidence.Low := by decide

/-! ### Claim C1 (corrected) -/

/-- Claim C1, counterexample: on the raw record with every field absent,
normalization yields last name `""` (not `"Unknown"`) and confidence
`Low` (not `Estimated`, because the absent confidence string defaults to
`"Low"` before mapping), refuting the stated defaults. -/
theorem normalizeRaw_defaults_counterexample :
    ¬ ((normalizeRaw "id0" emptyRaw).lastName = "Unknown" ∧
       (normalizeRaw "id0" emptyRaw).emailConfidence = EmailConfidence.Estimated) := by
  decide

/-- Claim C1, amended: normalization fills every missing (absent or
empty, both falsy) field with its default: `"Unknown"` for first name,
job title, company name and location; the empty string for last name,
linkedin and website; `"NULL"` for email and phone; and confidence `Low`
when the provider record specifies no confidence. -/
theorem normalizeRaw_defaults (id : String) (r : RawLead) :
    ((r.firstName = none ∨ r.firstName = some "") →
      (normalizeRaw id r).firstName = "Unknown") ∧
    ((r.lastName = none ∨ r.lastName = some "") →
      (normalizeRaw id r).lastName = "") ∧
    ((r.email = none ∨ r.email = some "") →
      (normalizeRaw id r).email = "NULL") ∧
    ((r.phone = none ∨ r.phone = some "") →
      (normalizeRaw id r).phone = "NULL") ∧
    ((r.jobTitle = none ∨ r.jobTitle = some "") →
      (normalizeRaw id r).jobTitle = "Unknown") ∧
    ((r.companyName = none ∨ r.companyName = some "") →
      (normalizeRaw id r).companyName = "Unknown") ∧
    ((r.location = none ∨ r.location = some "") →
      (normalizeRaw id r).location = "Unknown") ∧
    ((r.linkedin = none ∨ r.linkedin = some "") →
      (normalizeRaw id r).linkedin = "") ∧
    ((r.website = none ∨ r.website = some "") →
      (normalizeRaw id r).website = "") ∧
    ((r.emailConfidence = none ∨ r.emailConfidence = some "") →
      (normalizeRaw id r).emailConfidence = EmailConfidence.Low) := by
  refine ⟨?_, ?_, ?_, ?_, ?_, ?_, ?_, ?_, ?_, ?_⟩ <;>
    (rintro (h | h) <;> simp [normalizeRaw, jsOr, h, mapConfidence_low_string])

/-- Witness for the amended C1 theorem at the all-absent raw record. -/
theorem normalizeRaw_defaults_witness :
    (emptyRaw.lastName = none ∨ emptyRaw.lastName = some "") ∧
    (normalizeRaw "id0" emptyRaw).lastName = "" ∧
    (normalizeRaw "id0" emptyRaw).emailConfidence = EmailConfidence.Low :=
  ⟨Or.inl rfl, (normalizeRaw_defaults "id0" emptyRaw).2.1 (Or.inl rfl),
   (normalizeRaw_defaults "id0" emptyRaw).2.2.2.2.2.2.2.2.2 (Or.inl rfl)⟩

/-! ### Claim C2 (corrected) -/

/-- Classification condition in the words of the specification: the
source condition with the token `"quota"` matched case-insensitively.
Written from the spec for comparison with `isQuotaError`. -/
def specQuotaCond (e : JsError) : Bool :=
  strContains e.message "RESOURCE_EXHAUSTED" ||
  strContains e.message "429" ||
  strContains (jsToLower e.message) "quota" ||
  statusOrCode e == some 429 ||
  strContains e.props "RESOURCE_EXHAUSTED" ||
  strContains e.props "search_grounding_request_per_project_per_day_per_user"

/-- Claim C2, counterexample: a failure whose message says `Quota`
capitalized satisfies the case-insensitive condition the claim states,
yet the gateway propagates it unchanged instead of replacing it with the
distinguished `QUOTA_EXCEEDED` error: the stated equivalence fails. -/
theorem quota_classification_counterexample :
    ¬ ((findLeadsThrow upperQuotaError = quotaExceededError) ↔
       specQuotaCond upperQuotaError = true) := by
  decide

/-- Claim C2, amended: the gateway failure is classified as the
distinguished quota error exactly when the thrown error message contains
`RESOURCE_EXHAUSTED`, `429` or the lowercase token `quota`
(case-sensitively), or `status || code` equals 429, or the stringified
own-property dump contains `RESOURCE_EXHAUSTED` or the quota-subsystem
token; every other failure propagates as the original error. -/
theorem quota_classification (e : JsError) :
    (isQuotaError e = true → findLeadsThrow e = quotaExceededError) ∧
    (isQuotaError e = false → findLeadsThrow e = e) ∧
    (isQuotaError e =
      (strContains e.message "RESOURCE_EXHAUSTED" || strContains e.message "429" ||
       strContains e.message "quota" || statusOrCode e == some 429 ||
       strContains e.props "RESOURCE_EXHAUSTED" ||
       strContains e.props "search_grounding_request_per_project_per_day_per_user")) := by
  refine ⟨fun h => ?_, fun h => ?_, rfl⟩ <;> simp [findLeadsThrow, h]

/-- Witness for the amended C2 theorem on both classification outcomes. -/
theorem quota_classification_witness :
    isQuotaError err429 = true ∧ findLeadsThrow err429 = quotaExceededError ∧
    isQuotaError upperQuotaError = false ∧
    findLeadsThrow upperQuotaError = upperQuotaError :=
  ⟨by decide, (quota_classification err429).1 (by decide), by decide,
   (quota_classification upperQuotaError).2.1 (by decide)⟩

/-! ### Claim C3 (confirmed) -/

/-- Claim C3: the email validator accepts a string exactly when it
matches the defined address grammar (the embedded regex) and is not the
absence sentinel `"NULL"`. The validator is a pure function of its
argument and returns it unmodified by construction. -/
theorem emailValidator_spec (e : String) :
    isValidEmail e = true ↔ (emailRegexTest e = true ∧ e ≠ "NULL") := by
  unfold isValidEmail
  by_cases h1 : e = ""
  · subst h1
    simp [emailRegexTest_empty]
  · by_cases h2 : e = "NULL"
    · subst h2
      simp
    · simp [h1, h2]

/-! ### Claim C4 (confirmed) -/

/-- Claim C4: the validation pass rewrites every lead whose email is
non-sentinel and fails the validator to sentinel email with confidence
`Low`, regardless of the confidence the provider claimed, and leaves
every other lead unchanged. -/
theorem validatePass_spec (l : Lead) :
    (l.email ≠ "NULL" → isValidEmail l.email = false →
      validatePass l = { l with email := "NULL", emailConfidence := .Low }) ∧
    ((l.email = "NULL" ∨ isValidEmail l.email = true) → validatePass l = l) := by
  constructor
  · intro h1 h2
    simp [validatePass, h1, h2]
  · rintro (h | h) <;> simp [validatePass, h]

/-- Witness for C4 at the boundary input `bad@@@x` with provider-claimed
confidence `Verified`. -/
theorem validatePass_spec_witness :
    badEmailLead.email ≠ "NULL" ∧ isValidEmail badEmailLead.email = false ∧
    validatePass badEmailLead =
      { badEmailLead with email := "NULL", emailConfidence := .Low } :=
  ⟨by decide, by decide, (validatePass_spec badEmailLead).1 (by decide) (by decide)⟩

/-! ### Claim C5 (confirmed) -/

/-- Identifier of a lead as the claim describes it: the email when
non-sentinel, else the linkedin value, with the empty linkedin counting
as no identifier. Written from the words of the claim for comparison
with the dedup filter. -/
def claimIdent (l : Lead) : Option String :=
  if l.email ≠ "NULL" then some l.email
  else if l.linkedin ≠ "" then some l.linkedin
  else none

/-- Claim C5: deduplication keeps exactly the leads of the batch whose
identifier, when they have one, is absent from the existing-identifier
set; a lead with sentinel email and empty linkedin has no identifier and
is always kept. The hypothesis restricts to normalized leads, whose
email is either the sentinel or nonempty. -/
theorem dedup_spec (existing : List String) (ls : List Lead) (l : Lead)
    (hnorm : l.email = "NULL" ∨ l.email ≠ "") :
    l ∈ ls.filter (keepLead existing) ↔
      (l ∈ ls ∧ ∀ id, claimIdent l = some id → id ∉ existing) := by
  rw [List.mem_filter]
  have key : keepLead existing l = true ↔
      (∀ id, claimIdent l = some id → id ∉ existing) := by
    by_cases hN : l.email = "NULL"
    · by_cases hl : l.linkedin = ""
      · simp [keepLead, leadDedupId, claimIdent, hN, hl]
      · simp [keepLead, leadDedupId, claimIdent, hN, hl, List.elem_iff]
    · have hne : l.email ≠ "" := by
        rcases hnorm with h | h
        · exact absurd h hN
        · exact h
      simp [keepLead, leadDedupId, claimIdent, hN, hne, List.elem_iff]
  rw [key]

/-- Witness for C5: the identifier-less sentinel lead passes the dedup
filter whatever the existing set holds. -/
theorem dedup_spec_witness :
    (sentinelLead.email = "NULL" ∨ sentinelLead.email ≠ "") ∧
    (sentinelLead ∈ List.filter (keepLead ["x@y.co"]) [sentinelLead] ↔
      (sentinelLead ∈ [sentinelLead] ∧
       ∀ id, claimIdent sentinelLead = some id → id ∉ ["x@y.co"])) :=
  ⟨Or.inl rfl, dedup_spec ["x@y.co"] [sentinelLead] sentinelLead (Or.inl rfl)⟩

/-! ### Invariants of the controller state machine -/

/-- Once halted, the loop flag is down. -/
def QuotaInv (s : AppState) : Prop := s.quotaHit = true → s.status.isLooping = false

/-- The loop can only be on when criteria have been stored. -/
def LoopInv (s : AppState) : Prop := s.status.isLooping = true → s.currentCriteria ≠ none

/-- The derived count always equals the collection size. -/
def TotalInv (s : AppState) : Prop := s.status.totalFound = s.leads.length

theorem beginSearch_leads (s : AppState) : (beginSearch s).leads = s.leads := rfl

theorem beginSearch_quotaHit (s : AppState) : (beginSearch s).quotaHit = s.quotaHit := rfl

theorem beginSearch_isLooping (s : AppState) :
    (beginSearch s).status.isLooping = s.status.isLooping := rfl

theorem beginSearch_currentCriteria (s : AppState) :
    (beginSearch s).currentCriteria = s.currentCriteria := rfl

theorem searchSuccess_quotaHit (now : String) (s1 : AppState) (nl : List Lead) :
    (searchSuccess now s1 nl).quotaHit = s1.quotaHit := by
  simp only [searchSuccess]
  split <;> rfl

theorem searchSuccess_isLooping (now : String) (s1 : AppState) (nl : List Lead) :
    (searchSuccess now s1 nl).status.isLooping = s1.status.isLooping := by
  simp only [searchSuccess]
  split <;> rfl

theorem searchSuccess_currentCriteria (now : String) (s1 : AppState) (nl : List Lead) :
    (searchSuccess now s1 nl).currentCriteria = s1.currentCriteria := by
  simp only [searchSuccess]
  split <;> rfl

theorem searchSuccess_total (now : String) (s1 : AppState) (nl : List Lead)
    (h : TotalInv s1) : TotalInv (searchSuccess now s1 nl) := by
  simp only [TotalInv, searchSuccess] at h ⊢
  split <;> simp [addLog, setLeadsAndPersist, persistEffect, h]

theorem searchFailure_quotaHit_mono (s1 : AppState) (e : JsError)
    (h : s1.quotaHit = true) : (searchFailure s1 e).quotaHit = true := by
  simp only [searchFailure]
  split <;> simp [addLog, h]

theorem searchFailure_quotaInv (s1 : AppState) (e : JsError)
    (h : QuotaInv s1) : QuotaInv (searchFailure s1 e) := by
  simp only [QuotaInv, searchFailure] at h ⊢
  split
  · simp [addLog]
  · simpa [addLog] using h

theorem searchFailure_isLooping_mono (s1 : AppState) (e : JsError)
    (h : (searchFailure s1 e).status.isLooping = true) :
    s1.status.isLooping = true := by
  simp only [searchFailure] at h
  split at h
  · simp [addLog] at h
  · simpa [addLog] using h

theorem searchFailure_currentCriteria (s1 : AppState) (e : JsError) :
    (searchFailure s1 e).currentCriteria = s1.currentCriteria := by
  simp only [searchFailure]
  split <;> rfl

theorem searchFailure_total (s1 : AppState) (e : JsError)
    (h : TotalInv s1) : TotalInv (searchFailure s1 e) := by
  simp only [TotalInv, searchFailure] at h ⊢
  split <;> simpa [addLog] using h

theorem executeSearch_halted (ids : Nat → String) (now : String) (s : AppState)
    (o : Except JsError (List RawLead)) (h : s.quotaHit = true) :
    executeSearch ids now s o = s := by
  simp [executeSearch, h]

theorem executeSearch_currentCriteria (ids : Nat → String) (now : String)
    (s : AppState) (o : Except JsError (List RawLead)) :
    (executeSearch ids now s o).currentCriteria = s.currentCriteria := by
  unfold executeSearch
  split
  · rfl
  · split
    · rw [searchSuccess_currentCriteria]
      rfl
    · rw [searchFailure_currentCriteria]
      rfl

theorem executeSearch_isLooping_mono (ids : Nat → String) (now : String)
    (s : AppState) (o : Except JsError (List RawLead))
    (h : (executeSearch ids now s o).status.isLooping = true) :
    s.status.isLooping = true := by
  unfold executeSearch at h
  split at h
  · exact h
  · split at h
    · rwa [searchSuccess_isLooping] at h
    · exact searchFailure_isLooping_mono (beginSearch s) _ h

theorem executeSearch_quotaInv (ids : Nat → String) (now : String)
    (s : AppState) (o : Except JsError (List RawLead))
    (h : QuotaInv s) : QuotaInv (executeSearch ids now s o) := by
  unfold executeSearch
  split
  · exact h
  · split
    · intro hq
      rw [searchSuccess_quotaHit] at hq
      rw [searchSuccess_isLooping]
      exact h hq
    · exact searchFailure_quotaInv _ _ h

theorem executeSearch_total (ids : Nat → String) (now : String)
    (s : AppState) (o : Except JsError (List RawLead))
    (h : TotalInv s) : TotalInv (executeSearch ids now s o) := by
  unfold executeSearch
  split
  · exact h
  · split
    · exact searchSuccess_total _ _ _ h
    · exact searchFailure_total _ _ h

theorem findMoreNow_eq_none (ids : Nat → String) (now : String) (s : AppState)
    (o : Except JsError (List RawLead)) (hcc : s.currentCriteria = none) :
    findMoreNow ids now s o = s := by
  unfold findMoreNow
  rw [hcc]

theorem findMoreNow_eq_some (ids : Nat → String) (now : String) (s : AppState)
    (o : Except JsError (List RawLead)) (c : SearchCriteria)
    (hcc : s.currentCriteria = some c) :
    findMoreNow ids now s o =
      if (!s.status.isSearching && !s.quotaHit) = true then executeSearch ids now s o
      else s := by
  unfold findMoreNow
  rw [hcc]

theorem loopTick_eq_none (ids : Nat → String) (now : String) (s : AppState)
    (o : Except JsError (List RawLead)) (hcc : s.currentCriteria = none) :
    loopTick ids now s o = s := by
  unfold loopTick
  rw [hcc]

theorem loopTick_eq_some (ids : Nat → String) (now : String) (s : AppState)
    (o : Except JsError (List RawLead)) (c : SearchCriteria)
    (hcc : s.currentCriteria = some c) :
    loopTick ids now s o =
      if (s.status.isLooping && !s.status.isSearching && !s.quotaHit) = true then
        (if s.leads.length < c.resultsAmount then executeSearch ids now s o
         else addLog "Goal reached. Looping disabled."
           { s with status := { s.status with isLooping := false } })
      else s := by
  unfold loopTick
  rw [hcc]

/-- While halted with the loop down, every event keeps the session
halted with the loop down. -/
theorem step_halted (ids : Nat → String) (s : AppState) (e : Event)
    (hq : s.quotaHit = true) (hl : s.status.isLooping = false) :
    (step ids s e).quotaHit = true ∧ (step ids s e).status.isLooping = false := by
  cases e with
  | search c o now =>
    have hq2 : ({ s with currentCriteria := some c } : AppState).quotaHit = true := hq
    simp only [step, handleSearch]
    rw [executeSearch_halted _ _ _ _ hq2]
    exact ⟨hq, hl⟩
  | findMore o now =>
    cases hcc : s.currentCriteria <;> simp [step, findMoreNow, hcc, hq, hl]
  | tick o now =>
    cases hcc : s.currentCriteria <;> simp [step, loopTick, hcc, hq, hl]
  | toggle =>
    simp only [step]
    unfold toggleLoop
    split
    · exact ⟨hq, hl⟩
    · simp [hq, hl]
  | clear confirmed =>
    cases confirmed
    · simpa [step, clearData] using ⟨hq, hl⟩
    · simpa [step, clearData, persistEffect, clearDataHandler] using ⟨hq, hl⟩

theorem run_halted (ids : Nat → String) (s : AppState) (es : List Event)
    (hq : s.quotaHit = true) (hl : s.status.isLooping = false) :
    (run ids s es).quotaHit = true ∧ (run ids s es).status.isLooping = false := by
  induction es generalizing s with
  | nil => exact ⟨hq, hl⟩
  | cons e es ih =>
    have h := step_halted ids s e hq hl
    exact ih (step ids s e) h.1 h.2

theorem quotaInv_step (ids : Nat → String) (s : AppState) (e : Event)
    (h : QuotaInv s) : QuotaInv (step ids s e) := by
  cases e with
  | search c o now =>
    exact executeSearch_quotaInv _ _ _ _ (fun hq => h hq)
  | findMore o now =>
    cases hcc : s.currentCriteria with
    | none =>
      simp only [step]
      rw [findMoreNow_eq_none ids now s o hcc]
      exact h
    | some c =>
      simp only [step]
      rw [findMoreNow_eq_some ids now s o c hcc]
      by_cases hcond : (!s.status.isSearching && !s.quotaHit) = true
      · rw [if_pos hcond]
        exact executeSearch_quotaInv ids now s o h
      · rw [if_neg hcond]
        exact h
  | tick o now =>
    cases hcc : s.currentCriteria with
    | none =>
      simp only [step]
      rw [loopTick_eq_none ids now s o hcc]
      exact h
    | some c =>
      simp only [step]
      rw [loopTick_eq_some ids now s o c hcc]
      by_cases hcond : (s.status.isLooping && !s.status.isSearching && !s.quotaHit) = true
      · rw [if_pos hcond]
        by_cases hlen : s.leads.length < c.resultsAmount
        · rw [if_pos hlen]
          exact executeSearch_quotaInv ids now s o h
        · rw [if_neg hlen]
          intro hq
          rfl
      · rw [if_neg hcond]
        exact h
  | toggle =>
    simp only [step]
    unfold toggleLoop
    by_cases h1 : (s.currentCriteria.isNone && !s.status.isLooping) = true
    · rw [if_pos h1]
      exact h
    · rw [if_neg h1]
      by_cases h2 : s.quotaHit = true
      · rw [if_pos h2]
        exact h
      · rw [if_neg h2]
        intro hq
        exact absurd hq h2
  | clear confirmed =>
    cases confirmed
    · exact h
    · exact fun hq => h hq

theorem quotaInv_run (ids : Nat → String) (s : AppState) (es : List Event)
    (h : QuotaInv s) : QuotaInv (run ids s es) := by
  induction es generalizing s with
  | nil => exact h
  | cons e es ih => exact ih (step ids s e) (quotaInv_step ids s e h)

theorem loopInv_step (ids : Nat → String) (s : AppState) (e : Event)
    (h : LoopInv s) : LoopInv (step ids s e) := by
  cases e with
  | search c o now =>
    intro _
    rw [step, handleSearch, executeSearch_currentCriteria]
    simp
  | findMore o now =>
    cases hcc : s.currentCriteria with
    | none =>
      simp only [step]
      rw [findMoreNow_eq_none ids now s o hcc]
      exact h
    | some c =>
      simp only [step]
      rw [findMoreNow_eq_some ids now s o c hcc]
      by_cases hcond : (!s.status.isSearching && !s.quotaHit) = true
      · rw [if_pos hcond]
        intro hl
        rw [executeSearch_currentCriteria]
        exact h (executeSearch_isLooping_mono _ _ _ _ hl)
      · rw [if_neg hcond]
        exact h
  | tick o now =>
    cases hcc : s.currentCriteria with
    | none =>
      simp only [step]
      rw [loopTick_eq_none ids now s o hcc]
      exact h
    | some c =>
      simp only [step]
      rw [loopTick_eq_some ids now s o c hcc]
      by_cases hcond : (s.status.isLooping && !s.status.isSearching && !s.quotaHit) = true
      · rw [if_pos hcond]
        by_cases hlen : s.leads.length < c.resultsAmount
        · rw [if_pos hlen]
          intro hl
          rw [executeSearch_currentCriteria]
          exact h (executeSearch_isLooping_mono _ _ _ _ hl)
        · rw [if_neg hlen]
          intro hl
          exact absurd hl (by simp [addLog])
      · rw [if_neg hcond]
        exact h
  | toggle =>
    simp only [step]
    unfold toggleLoop
    by_cases h1 : (s.currentCriteria.isNone && !s.status.isLooping) = true
    · rw [if_pos h1]
      exact h
    · rw [if_neg h1]
      by_cases h2 : s.quotaHit = true
      · rw [if_pos h2]
        exact h
      · rw [if_neg h2]
        intro hl hcn
        have hl2 : (!s.status.isLooping) = true := hl
        have hcn2 : s.currentCriteria = none := hcn
        exact h1 (by simp [hcn2, hl2])
  | clear confirmed =>
    cases confirmed
    · exact h
    · exact fun hl => h hl

theorem loopInv_run (ids : Nat → String) (s : AppState) (es : List Event)
    (h : LoopInv s) : LoopInv (run ids s es) := by
  induction es generalizing s with
  | nil => exact h
  | cons e es ih => exact ih (step ids s e) (loopInv_step ids s e h)

theorem totalInv_step (ids : Nat → String) (s : AppState) (e : Event)
    (h : TotalInv s) : TotalInv (step ids s e) := by
  cases e with
  | search c o now => exact executeSearch_total _ _ _ _ h
  | findMore o now =>
    cases hcc : s.currentCriteria with
    | none =>
      simp only [step]
      rw [findMoreNow_eq_none ids now s o hcc]
      exact h
    | some c =>
      simp only [step]
      rw [findMoreNow_eq_some ids now s o c hcc]
      by_cases hcond : (!s.status.isSearching && !s.quotaHit) = true
      · rw [if_pos hcond]
        exact executeSearch_total ids now s o h
      · rw [if_neg hcond]
        exact h
  | tick o now =>
    cases hcc : s.currentCriteria with
    | none =>
      simp only [step]
      rw [loopTick_eq_none ids now s o hcc]
      exact h
    | some c =>
      simp only [step]
      rw [loopTick_eq_some ids now s o c hcc]
      by_cases hcond : (s.status.isLooping && !s.status.isSearching && !s.quotaHit) = true
      · rw [if_pos hcond]
        by_cases hlen : s.leads.length < c.resultsAmount
        · rw [if_pos hlen]
          exact executeSearch_total ids now s o h
        · rw [if_neg hlen]
          exact h
      · rw [if_neg hcond]
        exact h
  | toggle =>
    simp only [step]
    unfold toggleLoop
    by_cases h1 : (s.currentCriteria.isNone && !s.status.isLooping) = true
    · rw [if_pos h1]
      exact h
    · rw [if_neg h1]
      by_cases h2 : s.quotaHit = true
      · rw [if_pos h2]
        exact h
      · rw [if_neg h2]
        exact h
  | clear confirmed =>
    cases confirmed
    · exact h
    · rfl

theorem totalInv_run (ids : Nat → String) (s : AppState) (es : List Event)
    (h : TotalInv s) : TotalInv (run ids s es) := by
  induction es generalizing s with
  | nil => exact h
  | cons e es ih => exact ih (step ids s e) (totalInv_step ids s e h)

theorem mount_quotaInv (saved : Option (List Lead)) : QuotaInv (mount saved) := by
  intro h
  simp [mount] at h

theorem mount_loopInv (saved : Option (List Lead)) : LoopInv (mount saved) := by
  intro h
  simp [mount] at h

theorem mount_totalInv (saved : Option (List Lead)) : TotalInv (mount saved) := rfl

/-! ### Claims C6, C7, C8 (confirmed): controller state machine -/

/-- Fixed id supply used by concrete traces. -/
def idsW : Nat → String := fun n => toString n

def sampleCriteria : SearchCriteria :=
  { targetRoles := "CTO", keywords := "SaaS", industries := "Technology",
    location := "SF", includeContactInfo := true, resultsAmount := 50 }

/-- One search whose provider call fails with quota markers. -/
def quotaTrace : List Event :=
  [Event.search sampleCriteria (Except.error err429) "t0"]

/-- Claim C6: once a reachable session state carries the quota flag, any
continuation of the event sequence leaves the flag set and the loop flag
down: the quota transition cleared `isLooping` (take the empty
continuation), and toggling the loop or starting a new search while
halted changes neither flag. -/
theorem quota_flag_terminal (ids : Nat → String) (saved : Option (List Lead))
    (es1 es2 : List Event)
    (h : (run ids (mount saved) es1).quotaHit = true) :
    (run ids (mount saved) (es1 ++ es2)).quotaHit = true ∧
    (run ids (mount saved) (es1 ++ es2)).status.isLooping = false := by
  have hinv : QuotaInv (run ids (mount saved) es1) :=
    quotaInv_run ids (mount saved) es1 (mount_quotaInv saved)
  have hl : (run ids (mount saved) es1).status.isLooping = false := hinv h
  rw [run, List.foldl_append]
  exact run_halted ids (run ids (mount saved) es1) es2 h hl

/-- Witness for C6: the quota failure halts the session and a further
toggle leaves the flags unchanged. -/
theorem quota_flag_terminal_witness :
    (run idsW (mount none) quotaTrace).quotaHit = true ∧
    ((run idsW (mount none) (quotaTrace ++ [Event.toggle])).quotaHit = true ∧
     (run idsW (mount none) (quotaTrace ++ [Event.toggle])).status.isLooping = false) :=
  ⟨by decide, quota_flag_terminal idsW none quotaTrace [Event.toggle] (by decide)⟩

/-- Claim C7: in every reachable state, toggling the loop is a state
no-op (the user is only notified) when no criteria have been stored yet
or the session is halted by the quota flag; in every other reachable
state it flips `isLooping`. Reachability supplies the invariant that a
raised loop flag implies stored criteria, which is what makes the
missing-criteria guard of the source, which also tests `isLooping`,
agree with the claim. -/
theorem toggleLoop_spec (ids : Nat → String) (saved : Option (List Lead))
    (es : List Event) :
    (((run ids (mount saved) es).currentCriteria = none ∨
        (run ids (mount saved) es).quotaHit = true) →
      step ids (run ids (mount saved) es) Event.toggle = run ids (mount saved) es) ∧
    ((run ids (mount saved) es).currentCriteria ≠ none →
      (run ids (mount saved) es).quotaHit = false →
      step ids (run ids (mount saved) es) Event.toggle =
        { run ids (mount saved) es with
            status := { (run ids (mount saved) es).status with
                          isLooping := !(run ids (mount saved) es).status.isLooping } }) := by
  set s := run ids (mount saved) es with hs
  have hinv : LoopInv s := loopInv_run ids (mount saved) es (mount_loopInv saved)
  constructor
  · rintro (hc | hq)
    · have hl : s.status.isLooping = false := by
        cases hb : s.status.isLooping
        · rfl
        · exact absurd hc (hinv hb)
      have hcond : (s.currentCriteria.isNone && !s.status.isLooping) = true := by
        simp [hc, hl]
      simp only [step]
      unfold toggleLoop
      rw [if_pos hcond]
    · simp only [step]
      unfold toggleLoop
      by_cases h1 : (s.currentCriteria.isNone && !s.status.isLooping) = true
      · rw [if_pos h1]
      · rw [if_neg h1, if_pos hq]
  · intro hc hq
    have hn : s.currentCriteria.isNone = false := by
      cases hcc : s.currentCriteria with
      | none => exact absurd hcc hc
      | some c => rfl
    have h1 : ¬((s.currentCriteria.isNone && !s.status.isLooping) = true) := by
      simp [hn]
    have h2 : ¬(s.quotaHit = true) := by
      simp [hq]
    simp only [step]
    unfold toggleLoop
    rw [if_neg h1, if_neg h2]

/-- Witness for C7 at the freshly mounted state, which has no criteria:
the toggle is refused. -/
theorem toggleLoop_spec_witness :
    ((run idsW (mount none) []).currentCriteria = none ∨
      (run idsW (mount none) []).quotaHit = true) ∧
    step idsW (run idsW (mount none) []) Event.toggle = run idsW (mount none) [] :=
  ⟨Or.inl rfl, (toggleLoop_spec idsW none []).1 (Or.inl rfl)⟩

/-- Claim C8: after any sequence of controller transitions, the derived
`totalFound` equals the size of the lead collection; it is recomputed by
the persistence effect at every change of the collection and never
mutated elsewhere. -/
theorem totalFound_matches_collection (ids : Nat → String)
    (saved : Option (List Lead)) (es : List Event) :
    (run ids (mount saved) es).status.totalFound =
      (run ids (mount saved) es).leads.length :=
  totalInv_run ids (mount saved) es (mount_totalInv saved)

/-! ### Claim C9 (corrected) -/

/-- Claim C9, counterexample: after a confirmed clear-all on a session
mounted with one stored lead, the in-memory collection is empty, but the
persistence key is not absent: the save-on-change effect re-wrote it
with the serialized empty collection right after the removal. -/
theorem clearAll_removes_key_counterexample :
    ¬ ((step idsW (mount (some [sentinelLead])) (Event.clear true)).storage = none ∧
       (step idsW (mount (some [sentinelLead])) (Event.clear true)).leads = []) := by
  decide

/-- Claim C9, amended: after the user confirms clear-all, the in-memory
lead collection is empty and the handler removes the persistence key,
but the save-on-change persistence effect then fires because the
collection changed and re-writes the key with the serialized empty
collection, so the session ends with the key present and holding the
empty array (no lead data) rather than absent. -/
theorem clearAll_spec (ids : Nat → String) (s : AppState) :
    (clearDataHandler s).leads = [] ∧ (clearDataHandler s).storage = none ∧
    (step ids s (Event.clear true)).leads = [] ∧
    (step ids s (Event.clear true)).storage = some [] :=
  ⟨rfl, rfl, rfl, rfl⟩

/-! ### Claim C10 (confirmed) -/

theorem keepLead_of_not_contains (existing : List String) (l : Lead)
    (h : existing.contains (leadDedupId l) = false) : keepLead existing l = true := by
  simp only [keepLead]
  by_cases hz : (leadDedupId l == "") = true
  · simp [hz]
  · simp [hz]
    simpa using h

/-- Raw provider record carrying a fixed valid email, used twice in one
batch by the C10 witness. -/
def dupRaw : RawLead :=
  { firstName := some "A", lastName := none, email := some "a@b.co", phone := none,
    jobTitle := none, companyName := none, location := none, linkedin := none,
    website := none, emailConfidence := some "High" }

/-- Claim C10: deduplication of a batch compares each lead only against
the identifier set captured from the collection before the gateway call,
never against the rest of the batch: when a two-record batch normalizes
and validates to leads sharing one identifier that is absent from the
existing set, both records are appended to the collection. -/
theorem batch_duplicates_all_appended (ids : Nat → String) (now : String)
    (s : AppState) (r1 r2 : RawLead)
    (hquota : s.quotaHit = false)
    (hid : leadDedupId (validatePass (normalizeRaw (ids 0) r1)) =
           leadDedupId (validatePass (normalizeRaw (ids 1) r2)))
    (hnew : (existingIdsOf s.leads).contains
              (leadDedupId (validatePass (normalizeRaw (ids 0) r1))) = false) :
    (executeSearch ids now s (Except.ok [r1, r2])).leads =
      validatePass (normalizeRaw (ids 0) r1) ::
        validatePass (normalizeRaw (ids 1) r2) :: s.leads := by
  have hnew2 : (existingIdsOf s.leads).contains
      (leadDedupId (validatePass (normalizeRaw (ids 1) r2))) = false := by
    rw [← hid]
    exact hnew
  have hk1 := keepLead_of_not_contains _ _ hnew
  have hk2 := keepLead_of_not_contains _ _ hnew2
  unfold executeSearch
  rw [if_neg (by simp [hquota])]
  have hfl : findLeads ids (Except.ok [r1, r2]) =
      Except.ok [normalizeRaw (ids 0) r1, normalizeRaw (ids 1) r2] := rfl
  rw [hfl]
  show (searchSuccess now (beginSearch s)
      [normalizeRaw (ids 0) r1, normalizeRaw (ids 1) r2]).leads = _
  simp only [searchSuccess, beginSearch_leads, List.map_cons, List.map_nil,
    List.filter_cons, List.filter_nil, hk1, hk2, if_true]
  simp [addLog, setLeadsAndPersist, persistEffect]

/-- Witness for C10: the same raw record twice in one batch, its email
new to the collection; both copies are appended. -/
theorem batch_duplicates_all_appended_witness :
    (mount none).quotaHit = false ∧
    leadDedupId (validatePass (normalizeRaw (idsW 0) dupRaw)) =
      leadDedupId (validatePass (normalizeRaw (idsW 1) dupRaw)) ∧
    (existingIdsOf (mount none).leads).contains
      (leadDedupId (validatePass (normalizeRaw (idsW 0) dupRaw))) = false ∧
    (executeSearch idsW "t1" (mount none) (Except.ok [dupRaw, dupRaw])).leads =
      validatePass (normalizeRaw (idsW 0) dupRaw) ::
        validatePass (normalizeRaw (idsW 1) dupRaw) :: (mount none).leads :=
  ⟨rfl, by decide, by decide,
   batch_duplicates_all_appended idsW "t1" (mount none) dupRaw dupRaw rfl
     (by decide) (by decide)⟩

end Scout
